import Mathlib

/-!
# Verification of the keephy gateway request pipeline (`src/index.js`)

A shallow embedding of the Express gateway in `src/index.js`: one inbound
request is processed by `Gateway.handle`, which mirrors the registered
middleware/route layers in their exact source registration order:

1. request-id middleware (lines 13-17),
2. auth + entitlements middleware (lines 24-46),
3. rate-limit middleware (lines 49-56),
4. the route handlers registered before the guards (lines 58-413),
5. the module/feature guards (lines 416-435),
6. the route handlers registered after the guards (lines 438-600).

Express dispatches a request through these layers in registration order;
a layer that sends a response stops the chain, a layer that calls `next()`
falls through to the next layer.  `Gateway.handle` returns the response,
the new rate-limit counter and the list of downstream HTTP calls issued.

Network I/O (`jwt.verify`, `fetch`) is modelled by oracles in `Env`:
`jwtVerify` maps a token to its decoded claims (or `none` when
verification throws) and `fetch` maps an outbound call to its transport
outcome.  JSON values are the inductive `Json`; JavaScript property
access, truthiness, `&&`/`||` and template-string coercion are modelled
by `Json.get`, `Json.truthy`, `jsAnd`/`jsOr` and `jsToStr`.  Paths are
canonical segment lists (`/api/org/17` is `["api","org","17"]`); query
strings are carried already-encoded, as produced by
`new URLSearchParams(req.query).toString()`.
-/

namespace Gateway

/-- JSON values (what `express.json()` / `r.json()` produce). -/
inductive Json where
  | null
  | bool (b : Bool)
  | num (n : Int)
  | str (s : String)
  | arr (elems : List Json)
  | obj (fields : List (String × Json))

/-- JavaScript truthiness of a JSON value.  JS `undefined` is conflated
with `null` (both are falsy and both make property access / `=== false`
checks fail in the same way in the gateway's code). -/
def Json.truthy : Json → Bool
  | .null => false
  | .bool b => b
  | .num n => n != 0
  | .str s => s != ""
  | .arr _ => true
  | .obj _ => true

/-- JavaScript property access `j[k]` / `j.k`: field lookup on objects,
`undefined` (modelled as `null`) on everything else. -/
def Json.get : Json → String → Json
  | .obj fields, k => (fields.lookup k).getD .null
  | _, _ => .null

/-- JavaScript array indexing `j[0]` (`?.[0]` in the source); non-arrays
give `undefined`.  (JS string indexing is out of model scope; no route
depends on it.) -/
def Json.idx0 : Json → Json
  | .arr (x :: _) => x
  | _ => .null

/-- `j === false` (the guards' check). -/
def Json.isFalse : Json → Bool
  | .bool false => true
  | _ => false

/-- Does a JSON object body carry the key `k`? -/
def Json.hasKey : Json → String → Bool
  | .obj fields, k => fields.any (fun f => f.1 == k)
  | _, _ => false

/-- JavaScript `a && b`. -/
def jsAnd (a b : Json) : Json := if a.truthy then b else a

/-- JavaScript `a || b`. -/
def jsOr (a b : Json) : Json := if a.truthy then a else b

/-- JavaScript `a || d` on an optional environment string (`""` and
absent are both falsy). -/
def jsOrS (a : Option String) (d : String) : String :=
  match a with
  | some s => if s = "" then d else s
  | none => d

/-- JavaScript template-string coercion `String(j)` for the value kinds
the gateway interpolates (tenant ids, user ids).  Arrays/objects are
approximated (`String([..])` joins recursively in JS; no claim touches
that corner). -/
def jsToStr : Json → String
  | .null => "null"
  | .bool b => cond b "true" "false"
  | .num n => toString n
  | .str s => s
  | .arr _ => ""
  | .obj _ => "[object Object]"

/-- HTTP verbs used by the gateway's routes. -/
inductive Method where
  | GET | POST | PATCH | DELETE | PUT
deriving DecidableEq

/-- One outbound `fetch` call: the resolved service base URL, the path
segments appended after it, the forwarded query string when the route
forwards one, the request headers the route sets, and the JSON body for
writes (the source sends `JSON.stringify(req.body)`). -/
structure Call where
  method : Method
  base : String
  path : List String
  query : Option String := none
  headers : List (String × String) := []
  body : Option Json := none

/-- The full URL string a `Call` fetches (base, then `/seg` per path
segment; the query string part is irrelevant to the claims). -/
def urlOf (c : Call) : String :=
  c.base ++ String.join (c.path.map (fun s => "/" ++ s))

/-- Transport outcome of one `fetch`: the promise rejects (`fthrow`:
connection error / timeout), or a response arrives with an HTTP status
and the result of `r.json()` (`none` when the body fails JSON decode,
i.e. `r.json()` throws). -/
inductive FetchOutcome where
  | fthrow
  | resp (status : Nat) (body : Option Json)

/-- One inbound request, after the plumbing middleware: verb, canonical
path segments, the `authorization` and `x-request-id` headers, the
already-encoded query string, and the JSON-parsed body. -/
structure Request where
  method : Method
  path : List String
  authorization : Option String := none
  xRequestId : Option String := none
  query : String := ""
  body : Json := .null

/-- The gateway's response: HTTP status and JSON body.  (The Express
default 404 emits an HTML body; it is modelled as `Json.null` — no
claim touches it.) -/
structure Response where
  status : Nat
  body : Json

/-- Result of processing one request: the response, the rate-limit
counter after the request, and the downstream calls issued. -/
structure Outcome where
  response : Response
  tokens : Int
  calls : List Call

/-- The process environment and I/O oracles: the resolved
`X_SERVICE_URL || default` base for each downstream service, the
`ENTITLEMENTS_URL` / `RATE_TOKENS` variables, `jwt.verify` against the
configured secret (`none` = verification throws), the transport oracle
for `fetch`, and the `uuid()` generated for this request. -/
structure Env where
  orgBase : String := "http://localhost:7003"
  formsBase : String := "http://localhost:7004"
  submissionsBase : String := "http://localhost:3005"
  discountsBase : String := "http://localhost:3006"
  staffBase : String := "http://localhost:3007"
  notifyBase : String := "http://localhost:3008"
  reportBase : String := "http://localhost:3009"
  i18nBase : String := "http://localhost:3010"
  flagsBase : String := "http://localhost:3011"
  apiProgBase : String := "http://localhost:3012"
  searchBase : String := "http://localhost:3013"
  meterBase : String := "http://localhost:3014"
  integBase : String := "http://localhost:3015"
  exportBase : String := "http://localhost:3016"
  aiMlBase : String := "http://localhost:3017"
  auditBase : String := "http://localhost:3018"
  tenantIsoBase : String := "http://localhost:3019"
  entitlementsUrl : Option String := none
  rateTokens : Option Int := none
  jwtVerify : String → Option Json
  fetch : Call → FetchOutcome
  freshId : String

/-- Line 14: `req.id = req.headers['x-request-id'] || uuid()`. -/
def requestIdOf (env : Env) (req : Request) : String :=
  match req.xRequestId with
  | some s => if s = "" then env.freshId else s
  | none => env.freshId

/-- Line 25: the exact-path auth bypass list, in canonical segments. -/
def openPaths : List (List String) := [["healthz"], ["readyz"], ["auth", "login"]]

/-- Lines 27-28: `const auth = req.headers.authorization || ''` and
`const token = auth.startsWith('Bearer ') ? auth.slice(7) : null`;
line 29 rejects any falsy token, so an empty remainder is `none` too.
(`startsWith`/`slice` are modelled on the character list.) -/
def bearerToken (req : Request) : Option String :=
  let auth := req.authorization.getD ""
  if "Bearer ".data.isPrefixOf auth.data then
    let t := String.mk (auth.data.drop 7)
    if t = "" then none else some t
  else none

/-- Line 34: `decoded.scopes?.orgId || decoded.scopes?.businesses?.[0]
|| 'default'`, coerced into the URL template. -/
def tenantOf (user : Json) : String :=
  let scopes := user.get "scopes"
  let a := scopes.get "orgId"
  let b := (scopes.get "businesses").idx0
  jsToStr (jsOr (jsOr a b) (.str "default"))

/-- Line 36: `process.env.ENTITLEMENTS_URL ||
'http://localhost:7002/entitlements/' + tenantId` — the whole default
URL (tenant id already appended) is the `||` fallback, so a configured
`ENTITLEMENTS_URL` is fetched verbatim. -/
def entCall (env : Env) (tenantId : String) : Call :=
  { method := .GET
  , base := jsOrS env.entitlementsUrl ("http://localhost:7002/entitlements/" ++ tenantId)
  , path := [] }

/-- Line 38 / 40: `{ modules: {}, features: {} }`. -/
def emptyEnts : Json := .obj [("modules", .obj []), ("features", .obj [])]

/-- JS `resp.ok`: status in `[200, 300)`. -/
def okStatus (s : Nat) : Bool := decide (200 ≤ s ∧ s < 300)

/-- Lines 35-41: issue the entitlement fetch; on a 2xx response with a
decodable body the decoded JSON becomes `req.entitlements`, on a non-ok
status, a decode failure or a transport throw the inner `catch` /
ternary yields the empty set.  Returns the value and the issued call. -/
def resolveEnts (env : Env) (tenantId : String) : Json × Call :=
  ( match env.fetch (entCall env tenantId) with
    | .fthrow => emptyEnts
    | .resp s b => if okStatus s then (match b with | some j => j | none => emptyEnts) else emptyEnts
  , entCall env tenantId )

/-- The uniform failure envelope `{ message, requestId }` (used by the
401, 429 and per-route 502 responses). -/
def errEnvelope (msg requestId : String) : Json :=
  .obj [("message", .str msg), ("requestId", .str requestId)]

/-- The per-route proxy body (lines 115-123 and each clone): await the
downstream response, relay its status and decoded JSON body verbatim;
if the fetch throws or `r.json()` throws, the `catch` sends
`502 { message: label ++ "-service unavailable", requestId }`. -/
def proxy (env : Env) (requestId label : String) (c : Call) : Response × List Call :=
  match env.fetch c with
  | .resp s (some j) => (⟨s, j⟩, [c])
  | .resp _ none => (⟨502, errEnvelope (label ++ "-service unavailable") requestId⟩, [c])
  | .fthrow => (⟨502, errEnvelope (label ++ "-service unavailable") requestId⟩, [c])

/-- Lines 421-425: `moduleEnabled(key)` denies with
`403 { message: "Module disabled: " ++ key }` (no `requestId` in the
body) iff `modules[key] === false`; otherwise `next()` (`none`). -/
def gateModule (ents : Json) (key : String) : Option Response :=
  if ((jsOr (jsAnd ents (ents.get "modules")) (.obj [])).get key).isFalse then
    some ⟨403, .obj [("message", .str ("Module disabled: " ++ key))]⟩
  else none

/-- Lines 416-420: `featureEnabled(flag)` over `features[flag]`. -/
def gateFeature (ents : Json) (flag : String) : Option Response :=
  if ((jsOr (jsAnd ents (ents.get "features")) (.obj [])).get flag).isFalse then
    some ⟨403, .obj [("message", .str ("Feature disabled: " ++ flag))]⟩
  else none

/-- Lines 427-435: the guard middleware chain, each mounted on a path
prefix (Express mount paths match at segment boundaries); the first
denial responds, otherwise control falls through. -/
def guardsCheck (ents : Json) (path : List String) : Option Response :=
  (if ["api", "forms"].isPrefixOf path then gateModule ents "forms" else none) <|>
  (if ["api", "submissions"].isPrefixOf path then gateModule ents "submissions" else none) <|>
  (if ["api", "discounts"].isPrefixOf path then gateModule ents "discounts" else none) <|>
  (if ["api", "staff"].isPrefixOf path then gateModule ents "staff" else none) <|>
  (if ["api", "reports"].isPrefixOf path then gateFeature ents "reports" else none) <|>
  (if ["api", "i18n"].isPrefixOf path then gateFeature ents "i18n" else none) <|>
  (if ["api", "webhooks"].isPrefixOf path then gateFeature ents "integrationHub" else none) <|>
  (if ["api", "schedules"].isPrefixOf path then gateFeature ents "exportScheduler" else none)

/-- The call of `GET /api/org/:id` (line 117). -/
def orgGetCall (env : Env) (id : String) : Call :=
  { method := .GET, base := env.orgBase, path := ["org", id] }

/-- The call of `POST /api/forms` (line 128). -/
def formsPostCall (env : Env) (body : Json) : Call :=
  { method := .POST, base := env.formsBase, path := ["forms"]
  , headers := [("content-type", "application/json")], body := some body }

/-- The `x-user-id` header of `POST /api/submissions` (line 290):
`req.user?.id || ''`. -/
def xUserId (user : Json) : String := jsToStr (jsOr (user.get "id") (.str ""))

/-- Lines 61-91, `GET /readyz/full`: probe each of the five bases'
`/ready` concurrently (per-probe `catch` gives `false`), report 200 iff
all `r.ok`, else 503, with the per-service boolean map. -/
def readyzFull (env : Env) : Response × List Call :=
  let cOrg : Call := { method := .GET, base := env.orgBase, path := ["ready"] }
  let cForms : Call := { method := .GET, base := env.formsBase, path := ["ready"] }
  let cSubs : Call := { method := .GET, base := env.submissionsBase, path := ["ready"] }
  let cDisc : Call := { method := .GET, base := env.discountsBase, path := ["ready"] }
  let cStaff : Call := { method := .GET, base := env.staffBase, path := ["ready"] }
  let probe : Call → Bool := fun c =>
    match env.fetch c with
    | .fthrow => false
    | .resp s _ => okStatus s
  let sOrg := probe cOrg
  let sForms := probe cForms
  let sSubs := probe cSubs
  let sDisc := probe cDisc
  let sStaff := probe cStaff
  let allOk := sOrg && sForms && sSubs && sDisc && sStaff
  ( ⟨cond allOk 200 503
    , .obj [ ("ready", .bool allOk)
           , ("status", .obj [ ("org", .bool sOrg), ("forms", .bool sForms)
                             , ("submissions", .bool sSubs), ("discounts", .bool sDisc)
                             , ("staff", .bool sStaff) ]) ]⟩
  , [cOrg, cForms, cSubs, cDisc, cStaff] )

/-- A route-pattern segment: a literal, or one `:param` capture (an
Express path parameter matches exactly one segment). -/
inductive Seg where
  | lit (s : String)
  | par

/-- Express route matching: the pattern must cover the whole path, a
literal matches itself, `:param` captures one segment; returns the
captured segments in order. -/
def matchPat : List Seg → List String → Option (List String)
  | [], [] => some []
  | .lit s :: ps, x :: xs => if x = s then matchPat ps xs else none
  | .par :: ps, x :: xs => (matchPat ps xs).map (x :: ·)
  | _, _ => none

/-- Instantiate a downstream path template with the captured segments,
in order (every route's `fetch` template reuses its captures in
capture order). -/
def instPat : List Seg → List String → List String
  | [], _ => []
  | .lit s :: ps, args => s :: instPat ps args
  | .par :: _, [] => []
  | .par :: ps, a :: args => a :: instPat ps args

/-- One proxied route registration: verb, inbound pattern, downstream
base selector, downstream path template, the service label used in the
502 message, and the transform flags visible in its handler (forward
the query string; send the JSON body with the given content-type header
spelling; add the `x-user-id` header). -/
structure RouteBinding where
  method : Method
  pattern : List Seg
  base : Env → String
  downstream : List Seg
  label : String
  fwdQuery : Bool := false
  sendBody : Bool := false
  ctName : String := "content-type"
  xUser : Bool := false

/-- Build the outbound `fetch` call a route's handler issues. -/
def bindCall (env : Env) (b : RouteBinding) (args : List String) (user : Json)
    (req : Request) : Call :=
  { method := b.method
  , base := b.base env
  , path := instPat b.downstream args
  , query := if b.fwdQuery then some req.query else none
  , headers := (if b.sendBody then [(b.ctName, "application/json")] else []) ++
               (if b.xUser then [("x-user-id", xUserId user)] else [])
  , body := if b.sendBody then some req.body else none }

/-- First registered binding matching the request, as Express's router
scans layers in registration order. -/
def findRoute (m : Method) (path : List String) : List RouteBinding → Option (RouteBinding × List String)
  | [] => none
  | b :: bs =>
    match (if b.method = m then matchPat b.pattern path else none) with
    | some args => some (b, args)
    | none => findRoute m path bs

/-- Dispatch a request against a table of proxied routes. -/
def dispatchTable (env : Env) (rid : String) (user : Json) (req : Request)
    (tbl : List RouteBinding) : Option (Response × List Call) :=
  (findRoute req.method req.path tbl).map
    (fun p => proxy env rid p.1.label (bindCall env p.1 p.2 user req))

/-- The four non-proxying handlers registered before the guards, in
registration order: `GET /healthz` (line 58), `GET /readyz` (line 59),
`GET /readyz/full` (line 61), `GET /api/v1/me` (line 94). -/
def specialsPre (env : Env) (rid : String) (user ents : Json) (req : Request) :
    Option (Response × List Call) :=
  if req.method = .GET ∧ req.path = ["healthz"] then
    some (⟨200, .obj [("status", .str "ok"), ("requestId", .str rid)]⟩, [])
  else if req.method = .GET ∧ req.path = ["readyz"] then
    some (⟨200, .obj [("status", .str "ready")]⟩, [])
  else if req.method = .GET ∧ req.path = ["readyz", "full"] then
    some (readyzFull env)
  else if req.method = .GET ∧ req.path = ["api", "v1", "me"] then
    some (⟨200, .obj [ ("user", jsOr user .null), ("entitlements", jsOr ents .null)
                     , ("requestId", .str rid) ]⟩, [])
  else none

/-- The proxied routes registered *before* the guards (lines 115-413),
one table row per `app.<verb>` registration, in registration order. -/
def preTable : List RouteBinding :=
  [ -- line 115: GET /api/org/:id
    { method := .GET, pattern := [.lit "api", .lit "org", .par]
    , base := Env.orgBase, downstream := [.lit "org", .par], label := "org" }
    -- line 126: POST /api/forms
  , { method := .POST, pattern := [.lit "api", .lit "forms"]
    , base := Env.formsBase, downstream := [.lit "forms"], label := "forms", sendBody := true }
    -- line 134: GET /api/forms/:id
  , { method := .GET, pattern := [.lit "api", .lit "forms", .par]
    , base := Env.formsBase, downstream := [.lit "forms", .par], label := "forms" }
    -- line 142: PATCH /api/forms/:id
  , { method := .PATCH, pattern := [.lit "api", .lit "forms", .par]
    , base := Env.formsBase, downstream := [.lit "forms", .par], label := "forms", sendBody := true }
    -- line 150: DELETE /api/forms/:id
  , { method := .DELETE, pattern := [.lit "api", .lit "forms", .par]
    , base := Env.formsBase, downstream := [.lit "forms", .par], label := "forms" }
    -- line 158: GET /api/forms/by-code/:code
  , { method := .GET, pattern := [.lit "api", .lit "forms", .lit "by-code", .par]
    , base := Env.formsBase, downstream := [.lit "forms", .lit "by-code", .par], label := "forms" }
    -- line 166: POST /api/franchise/:id/forms
  , { method := .POST, pattern := [.lit "api", .lit "franchise", .par, .lit "forms"]
    , base := Env.formsBase, downstream := [.lit "franchise", .par, .lit "forms"]
    , label := "forms", sendBody := true }
    -- line 174: POST /api/org
  , { method := .POST, pattern := [.lit "api", .lit "org"]
    , base := Env.orgBase, downstream := [.lit "org"], label := "org", sendBody := true }
    -- line 184: GET /api/brand
  , { method := .GET, pattern := [.lit "api", .lit "brand"]
    , base := Env.orgBase, downstream := [.lit "brand"], label := "org", fwdQuery := true }
    -- line 195: POST /api/brand
  , { method := .POST, pattern := [.lit "api", .lit "brand"]
    , base := Env.orgBase, downstream := [.lit "brand"], label := "org", sendBody := true }
    -- line 205: GET /api/business
  , { method := .GET, pattern := [.lit "api", .lit "business"]
    , base := Env.orgBase, downstream := [.lit "business"], label := "org", fwdQuery := true }
    -- line 216: POST /api/business
  , { method := .POST, pattern := [.lit "api", .lit "business"]
    , base := Env.orgBase, downstream := [.lit "business"], label := "org", sendBody := true }
    -- line 226: GET /api/business/:id
  , { method := .GET, pattern := [.lit "api", .lit "business", .par]
    , base := Env.orgBase, downstream := [.lit "business", .par], label := "org" }
    -- line 236: PATCH /api/business/:id
  , { method := .PATCH, pattern := [.lit "api", .lit "business", .par]
    , base := Env.orgBase, downstream := [.lit "business", .par], label := "org", sendBody := true }
    -- line 246: GET /api/franchise
  , { method := .GET, pattern := [.lit "api", .lit "franchise"]
    , base := Env.orgBase, downstream := [.lit "franchise"], label := "org", fwdQuery := true }
    -- line 257: POST /api/franchise
  , { method := .POST, pattern := [.lit "api", .lit "franchise"]
    , base := Env.orgBase, downstream := [.lit "franchise"], label := "org", sendBody := true }
    -- line 267: GET /api/franchise/:id
  , { method := .GET, pattern := [.lit "api", .lit "franchise", .par]
    , base := Env.orgBase, downstream := [.lit "franchise", .par], label := "org" }
    -- line 277: PATCH /api/franchise/:id
  , { method := .PATCH, pattern := [.lit "api", .lit "franchise", .par]
    , base := Env.orgBase, downstream := [.lit "franchise", .par], label := "org", sendBody := true }
    -- line 288: POST /api/submissions (adds the x-user-id header)
  , { method := .POST, pattern := [.lit "api", .lit "submissions"]
    , base := Env.submissionsBase, downstream := [.lit "submissions"], label := "submissions"
    , sendBody := true, xUser := true }
    -- line 298: GET /api/submissions/by-business/:businessId
  , { method := .GET, pattern := [.lit "api", .lit "submissions", .lit "by-business", .par]
    , base := Env.submissionsBase, downstream := [.lit "submissions", .lit "by-business", .par]
    , label := "submissions", fwdQuery := true }
    -- line 310: GET /api/discounts/:accessKey
  , { method := .GET, pattern := [.lit "api", .lit "discounts", .par]
    , base := Env.discountsBase, downstream := [.lit "discounts", .par], label := "discounts" }
    -- line 320: POST /api/discounts/mark-used
  , { method := .POST, pattern := [.lit "api", .lit "discounts", .lit "mark-used"]
    , base := Env.discountsBase, downstream := [.lit "discounts", .lit "mark-used"]
    , label := "discounts", sendBody := true }
    -- line 331: POST /api/staff
  , { method := .POST, pattern := [.lit "api", .lit "staff"]
    , base := Env.staffBase, downstream := [.lit "staff"], label := "staff", sendBody := true }
    -- line 341: GET /api/staff
  , { method := .GET, pattern := [.lit "api", .lit "staff"]
    , base := Env.staffBase, downstream := [.lit "staff"], label := "staff", fwdQuery := true }
    -- line 352: PATCH /api/staff/:id
  , { method := .PATCH, pattern := [.lit "api", .lit "staff", .par]
    , base := Env.staffBase, downstream := [.lit "staff", .par], label := "staff", sendBody := true }
    -- line 362: DELETE /api/staff/:id
  , { method := .DELETE, pattern := [.lit "api", .lit "staff", .par]
    , base := Env.staffBase, downstream := [.lit "staff", .par], label := "staff" }
    -- line 372: POST /api/staff/:id/schedule
  , { method := .POST, pattern := [.lit "api", .lit "staff", .par, .lit "schedule"]
    , base := Env.staffBase, downstream := [.lit "staff", .par, .lit "schedule"]
    , label := "staff", sendBody := true }
    -- line 382: GET /api/staff/:id/schedule
  , { method := .GET, pattern := [.lit "api", .lit "staff", .par, .lit "schedule"]
    , base := Env.staffBase, downstream := [.lit "staff", .par, .lit "schedule"], label := "staff" }
    -- line 393: GET /api/notifications/rules
  , { method := .GET, pattern := [.lit "api", .lit "notifications", .lit "rules"]
    , base := Env.notifyBase, downstream := [.lit "rules"], label := "notifications"
    , fwdQuery := true }
    -- line 405: GET /api/reports/live/:businessId
  , { method := .GET, pattern := [.lit "api", .lit "reports", .lit "live", .par]
    , base := Env.reportBase, downstream := [.lit "reports", .lit "live", .par]
    , label := "reporting" } ]

/-- The proxied routes registered *after* the guards (lines 438-600),
in registration order. -/
def postTable : List RouteBinding :=
  [ -- line 438: GET /api/i18n/:namespace
    { method := .GET, pattern := [.lit "api", .lit "i18n", .par]
    , base := Env.i18nBase, downstream := [.lit "i18n", .par], label := "translation"
    , fwdQuery := true }
    -- line 450: GET /api/flags/:tenantId
  , { method := .GET, pattern := [.lit "api", .lit "flags", .par]
    , base := Env.flagsBase, downstream := [.lit "flags", .par], label := "feature-flags" }
    -- line 461: GET /api/api-keys/:tenantId
  , { method := .GET, pattern := [.lit "api", .lit "api-keys", .par]
    , base := Env.apiProgBase, downstream := [.lit "api-keys", .par], label := "api-program" }
    -- line 470: GET /api/search
  , { method := .GET, pattern := [.lit "api", .lit "search"]
    , base := Env.searchBase, downstream := [.lit "search"], label := "search", fwdQuery := true }
    -- line 480: GET /api/usage/:tenantId
  , { method := .GET, pattern := [.lit "api", .lit "usage", .par]
    , base := Env.meterBase, downstream := [.lit "usage", .par], label := "metering" }
    -- line 503: GET /api/webhooks
  , { method := .GET, pattern := [.lit "api", .lit "webhooks"]
    , base := Env.integBase, downstream := [.lit "webhooks"], label := "integration-hub"
    , fwdQuery := true }
    -- line 513: GET /api/schedules
  , { method := .GET, pattern := [.lit "api", .lit "schedules"]
    , base := Env.exportBase, downstream := [.lit "schedules"], label := "export-scheduler"
    , fwdQuery := true }
    -- line 524: POST /api/ai-ml/analyze/sentiment
  , { method := .POST, pattern := [.lit "api", .lit "ai-ml", .lit "analyze", .lit "sentiment"]
    , base := Env.aiMlBase, downstream := [.lit "analyze", .lit "sentiment"], label := "ai-ml"
    , sendBody := true, ctName := "Content-Type" }
    -- line 536: POST /api/ai-ml/analyze/topics
  , { method := .POST, pattern := [.lit "api", .lit "ai-ml", .lit "analyze", .lit "topics"]
    , base := Env.aiMlBase, downstream := [.lit "analyze", .lit "topics"], label := "ai-ml"
    , sendBody := true, ctName := "Content-Type" }
    -- line 548: GET /api/ai-ml/insights/:tenantId
  , { method := .GET, pattern := [.lit "api", .lit "ai-ml", .lit "insights", .par]
    , base := Env.aiMlBase, downstream := [.lit "insights", .par], label := "ai-ml"
    , fwdQuery := true }
    -- line 559: POST /api/audit/log
  , { method := .POST, pattern := [.lit "api", .lit "audit", .lit "log"]
    , base := Env.auditBase, downstream := [.lit "audit", .lit "log"], label := "audit"
    , sendBody := true, ctName := "Content-Type" }
    -- line 571: GET /api/audit/:tenantId
  , { method := .GET, pattern := [.lit "api", .lit "audit", .par]
    , base := Env.auditBase, downstream := [.lit "audit", .par], label := "audit"
    , fwdQuery := true }
    -- line 582: GET /api/tenants/:tenantId
  , { method := .GET, pattern := [.lit "api", .lit "tenants", .par]
    , base := Env.tenantIsoBase, downstream := [.lit "tenants", .par], label := "tenant-isolation" }
    -- line 590: POST /api/tenant-isolation/validate-access
  , { method := .POST, pattern := [.lit "api", .lit "tenant-isolation", .lit "validate-access"]
    , base := Env.tenantIsoBase, downstream := [.lit "validate-access"], label := "tenant-isolation"
    , sendBody := true, ctName := "Content-Type" } ]

/-- The route layers registered *before* the guards (lines 58-413):
the four non-proxying handlers, then the pre-guard proxy table; `none`
means no layer matched and control falls through to the guards. -/
def routesPre (env : Env) (rid : String) (user ents : Json) (req : Request) :
    Option (Response × List Call) :=
  specialsPre env rid user ents req <|> dispatchTable env rid user req preTable

/-- The route layers registered *after* the guards (lines 438-600).
(None of them reads `req.user`, so no principal is threaded in.) -/
def routesPost (env : Env) (rid : String) (req : Request) :
    Option (Response × List Call) :=
  dispatchTable env rid .null req postTable

/-- The layer chain past the rate limiter: the pre-guard routes, then
the guard middleware (only reached when no earlier route matched — the
ordering the source's registration sequence produces), then the
post-guard routes, then Express's default 404. -/
def afterAdmission (env : Env) (rid : String) (user ents : Json) (req : Request) :
    Response × List Call :=
  match routesPre env rid user ents req with
  | some r => r
  | none =>
    match guardsCheck ents req.path with
    | some resp => (resp, [])
    | none =>
      match routesPost env rid req with
      | some r => r
      | none => (⟨404, Json.null⟩, [])

/-- Lines 52-56, the rate-limit middleware, and everything after it:
`TOKENS <= 0` rejects with `429 { message: 'Too many requests',
requestId }` without decrementing; otherwise the counter is decremented
by one and the request proceeds down the layer chain.  `entCalls` is
the entitlement fetch already issued by the auth middleware. -/
def afterAuth (env : Env) (tokens : Int) (rid : String) (user ents : Json)
    (entCalls : List Call) (req : Request) : Outcome :=
  if tokens ≤ 0 then ⟨⟨429, errEnvelope "Too many requests" rid⟩, tokens, entCalls⟩
  else
    let r := afterAdmission env rid user ents req
    ⟨r.1, tokens - 1, entCalls ++ r.2⟩

/-- The whole per-request pipeline, layers in source registration
order: request-id, auth + entitlements (lines 24-46: open paths skip
straight to the rate limiter; a missing bearer token or a failing
`jwt.verify` responds 401 and nothing further runs), then the
rate-limited route chain. -/
def handle (env : Env) (tokens : Int) (req : Request) : Outcome :=
  let rid := requestIdOf env req
  if req.path ∈ openPaths then
    afterAuth env tokens rid .null .null [] req
  else
    match bearerToken req with
    | none => ⟨⟨401, errEnvelope "Missing token" rid⟩, tokens, []⟩
    | some tok =>
      match env.jwtVerify tok with
      | none => ⟨⟨401, errEnvelope "Invalid token" rid⟩, tokens, []⟩
      | some user =>
        let p := resolveEnts env (tenantOf user)
        afterAuth env tokens rid user p.1 [p.2] req

/-- Lines 489-493: `meterWrite` fires a POST to the metering
collaborator's `usage/increment` endpoint; its `try/catch {}` swallows
every failure, so it contributes a call and nothing else. -/
def meterWriteCall (env : Env) (tenantId metric : String) : Call :=
  { method := .POST, base := env.meterBase, path := ["usage", "increment"]
  , headers := [("content-type", "application/json")]
  , body := some (.obj [("tenantId", .str tenantId), ("metric", .str metric), ("value", .num 1)]) }

/-- Lines 496-500: `wrapWrite(handler, metric)` runs the wrapped
handler, then (fire-and-forget, response already sent) issues the
metering call when the handler's status is `< 500`.  No registered
route uses it. -/
def wrapWrite (env : Env) (handler : Request → Response × List Call) (metric : String)
    (user : Json) (req : Request) : Response × List Call :=
  let tenantId := tenantOf user
  let r := handler req
  (r.1, r.2 ++ (if r.1.status < 500 then [meterWriteCall env tenantId metric] else []))

/-- Is `c` the metering-notification call (`POST` to the metering
base's `usage/increment`)? -/
def isMeterIncrement (env : Env) (c : Call) : Bool :=
  decide (c.method = .POST ∧ c.base = env.meterBase ∧ c.path = ["usage", "increment"])

/-- Syntactic check that a route binding can never issue the metering
notification: it is not a POST, or its downstream path starts with a
literal other than `"usage"`. -/
def bindingSafe (b : RouteBinding) : Bool :=
  match b.method, b.downstream with
  | .POST, .lit s :: _ => s != "usage"
  | .POST, _ => false
  | _, _ => true

/-- Lines 49-51: `Number(process.env.RATE_TOKENS || 200)` — the
admission ceiling, read at startup and re-read on every refill tick. -/
def ceilingOf (cfg : Option Int) : Int := cfg.getD 200

/-- An admission-counter event: one request reaching the rate limiter,
or one `setInterval` refill tick (carrying the configuration it reads
fresh). -/
inductive RLEvent where
  | request
  | tick (cfg : Option Int)

/-- One step of the shared counter: a request at `TOKENS <= 0` is
rejected (`some false`) without decrementing; an admitted request
(`some true`) decrements by exactly one; a tick resets the counter to
the ceiling and admits nothing itself. -/
def rlStep (tokens : Int) : RLEvent → Int × Option Bool
  | .request => if tokens ≤ 0 then (tokens, some false) else (tokens - 1, some true)
  | .tick cfg => (ceilingOf cfg, none)

/-- Fold a sequence of counter events: final counter value and the
per-request admission outcomes in order. -/
def rlRun (tokens : Int) : List RLEvent → Int × List Bool
  | [] => (tokens, [])
  | e :: es =>
    let s := rlStep tokens e
    let r := rlRun s.1 es
    (r.1, s.2.toList ++ r.2)

/-- `pat` occurs as a substring of `s`. -/
def strContains (s pat : String) : Bool :=
  s.data.tails.any (fun t => pat.data.isPrefixOf t)

/-! ## Concrete fixtures used by counterexamples and witnesses -/

/-- An `EntitlementSet` with `modules.forms === false`. -/
def entsFormsOff : Json :=
  .obj [("modules", .obj [("forms", .bool false)]), ("features", .obj [])]

/-- Environment where token `"tok"` verifies to a principal with
`scopes.orgId = "t1"`, the entitlement fetch returns `entsFormsOff`,
and the forms service answers `201 {id:"abc"}`. -/
def envC1 : Env :=
  { jwtVerify := fun t =>
      if t = "tok" then some (.obj [("scopes", .obj [("orgId", .str "t1")])]) else none
  , fetch := fun c =>
      if c.path = ["forms"] then .resp 201 (some (.obj [("id", .str "abc")]))
      else .resp 200 (some entsFormsOff)
  , freshId := "r1" }

def reqC1 : Request :=
  { method := .POST, path := ["api", "forms"], authorization := some "Bearer tok"
  , body := .obj [("name", .str "f")] }

def userC2 : Json := .obj [("scopes", .obj [("orgId", .str "tenant-42")])]

/-- Environment with a configured `ENTITLEMENTS_URL`. -/
def envC2 : Env :=
  { jwtVerify := fun t => if t = "tok" then some userC2 else none
  , entitlementsUrl := some "http://ents.example/entitlements"
  , fetch := fun _ => .fthrow
  , freshId := "r2" }

def reqC2 : Request :=
  { method := .GET, path := ["api", "v1", "me"], authorization := some "Bearer tok" }

/-- Environment whose token verification always throws and whose
transport always fails. -/
def envC3 : Env :=
  { jwtVerify := fun _ => none, fetch := fun _ => .fthrow, freshId := "r3" }

/-- A `GET /healthz` request carrying junk headers. -/
def reqC3 : Request :=
  { method := .GET, path := ["healthz"], authorization := some "garbage"
  , xRequestId := some "xyz" }

def entsC4 : Json := .obj [("modules", .obj [("forms", .bool false)])]

/-- The denial response `moduleEnabled('forms')` produces. -/
def gateRespC4 : Response := ⟨403, .obj [("message", .str "Module disabled: forms")]⟩

def envC4 : Env :=
  { jwtVerify := fun t => if t = "tok" then some (.obj []) else none
  , fetch := fun _ => .resp 200 (some entsC4)
  , freshId := "r4" }

/-- A request under `/api/forms/*` that matches no registered route, so
it reaches the (late-registered) guard middleware. -/
def reqC4 : Request :=
  { method := .GET, path := ["api", "forms", "a", "b"], authorization := some "Bearer tok" }

def envC5 : Env :=
  { jwtVerify := fun t => if t = "tok" then some (.obj []) else none
  , fetch := fun c => if c.path = ["org", "42"] then .fthrow else .resp 200 (some emptyEnts)
  , freshId := "r5" }

def reqC5 : Request :=
  { method := .GET, path := ["api", "org", "42"], authorization := some "Bearer tok" }

def envC6 : Env :=
  { jwtVerify := fun t => if t = "tok" then some (.obj []) else none
  , fetch := fun c =>
      if c.path = ["forms"] then .resp 201 (some (.obj [("id", .str "abc")]))
      else .resp 200 (some emptyEnts)
  , freshId := "r6" }

def reqC6 : Request :=
  { method := .POST, path := ["api", "forms"], authorization := some "Bearer tok"
  , body := .obj [("title", .str "t")] }

def envC7 : Env :=
  { jwtVerify := fun _ => none, fetch := fun _ => .fthrow, freshId := "r7" }

/-- A protected-path request with no `Authorization` header. -/
def reqC7 : Request := { method := .GET, path := ["api", "org", "1"] }

/-- A protected-path request whose bearer token fails verification. -/
def reqC7bad : Request :=
  { method := .GET, path := ["api", "org", "1"], authorization := some "Bearer bad" }

def envC9 : Env :=
  { jwtVerify := fun t => if t = "tok" then some (.obj []) else none
  , fetch := fun _ => .fthrow
  , freshId := "r9" }

def reqC9 : Request :=
  { method := .GET, path := ["api", "v1", "me"], authorization := some "Bearer tok" }

/-! ## Helper lemmas about the pipeline -/

theorem proxy_calls (env : Env) (rid label : String) (c : Call) :
    (proxy env rid label c).2 = [c] := by
  unfold proxy
  cases env.fetch c with
  | fthrow => rfl
  | resp s b => cases b <;> rfl

theorem proxy_fail_throw (env : Env) (rid label : String) (c : Call)
    (h : env.fetch c = .fthrow) :
    proxy env rid label c = (⟨502, errEnvelope (label ++ "-service unavailable") rid⟩, [c]) := by
  unfold proxy; rw [h]

theorem proxy_fail_decode (env : Env) (rid label : String) (c : Call) (s : Nat)
    (h : env.fetch c = .resp s none) :
    proxy env rid label c = (⟨502, errEnvelope (label ++ "-service unavailable") rid⟩, [c]) := by
  unfold proxy; rw [h]

theorem proxy_pass (env : Env) (rid label : String) (c : Call) (s : Nat) (j : Json)
    (h : env.fetch c = .resp s (some j)) :
    proxy env rid label c = (⟨s, j⟩, [c]) := by
  unfold proxy; rw [h]

theorem handle_open (env : Env) (tokens : Int) (req : Request) (hop : req.path ∈ openPaths) :
    handle env tokens req = afterAuth env tokens (requestIdOf env req) .null .null [] req := by
  unfold handle; rw [if_pos hop]

theorem handle_authed (env : Env) (tokens : Int) (req : Request) (tok : String) (user : Json)
    (hop : req.path ∉ openPaths) (hbt : bearerToken req = some tok)
    (hv : env.jwtVerify tok = some user) :
    handle env tokens req =
      afterAuth env tokens (requestIdOf env req) user (resolveEnts env (tenantOf user)).1
        [entCall env (tenantOf user)] req := by
  unfold handle
  rw [if_neg hop]
  simp only [hbt, hv]
  rfl

theorem handle_missing (env : Env) (tokens : Int) (req : Request)
    (hop : req.path ∉ openPaths) (hbt : bearerToken req = none) :
    handle env tokens req =
      ⟨⟨401, errEnvelope "Missing token" (requestIdOf env req)⟩, tokens, []⟩ := by
  unfold handle
  rw [if_neg hop, hbt]

theorem handle_badtoken (env : Env) (tokens : Int) (req : Request) (tok : String)
    (hop : req.path ∉ openPaths) (hbt : bearerToken req = some tok)
    (hv : env.jwtVerify tok = none) :
    handle env tokens req =
      ⟨⟨401, errEnvelope "Invalid token" (requestIdOf env req)⟩, tokens, []⟩ := by
  unfold handle
  rw [if_neg hop]
  simp only [hbt, hv]

theorem resolveEnts_snd (env : Env) (tid : String) :
    (resolveEnts env tid).2 = entCall env tid := rfl

theorem afterAuth_pos (env : Env) (tokens : Int) (rid : String) (user ents : Json)
    (entCalls : List Call) (req : Request) (ht : 0 < tokens) :
    afterAuth env tokens rid user ents entCalls req =
      ⟨(afterAdmission env rid user ents req).1, tokens - 1,
       entCalls ++ (afterAdmission env rid user ents req).2⟩ := by
  unfold afterAuth; rw [if_neg (not_le.mpr ht)]

theorem afterAuth_nonpos (env : Env) (tokens : Int) (rid : String) (user ents : Json)
    (entCalls : List Call) (req : Request) (ht : tokens ≤ 0) :
    afterAuth env tokens rid user ents entCalls req =
      ⟨⟨429, errEnvelope "Too many requests" rid⟩, tokens, entCalls⟩ := by
  unfold afterAuth; rw [if_pos ht]

theorem afterAdmission_route (env : Env) (rid : String) (user ents : Json) (req : Request)
    (r : Response × List Call) (h : routesPre env rid user ents req = some r) :
    afterAdmission env rid user ents req = r := by
  unfold afterAdmission; rw [h]

theorem routesPre_healthz (env : Env) (rid : String) (user ents : Json)
    (a x : Option String) (q : String) (b : Json) :
    routesPre env rid user ents ⟨.GET, ["healthz"], a, x, q, b⟩ =
      some (⟨200, .obj [("status", .str "ok"), ("requestId", .str rid)]⟩, []) := rfl

theorem routesPre_org (env : Env) (rid : String) (user ents : Json) (oid : String)
    (a x : Option String) (q : String) (b : Json) :
    routesPre env rid user ents ⟨.GET, ["api", "org", oid], a, x, q, b⟩ =
      some (proxy env rid "org" (orgGetCall env oid)) := rfl

theorem routesPre_formsPost (env : Env) (rid : String) (user ents : Json)
    (a x : Option String) (q : String) (b : Json) :
    routesPre env rid user ents ⟨.POST, ["api", "forms"], a, x, q, b⟩ =
      some (proxy env rid "forms" (formsPostCall env b)) := rfl

theorem entCall_not_meter (env : Env) (tid : String) :
    isMeterIncrement env (entCall env tid) = false := by
  simp [isMeterIncrement, entCall]

theorem findRoute_mem (m : Method) (path : List String) (tbl : List RouteBinding)
    (b : RouteBinding) (args : List String) (h : findRoute m path tbl = some (b, args)) :
    b ∈ tbl := by
  induction tbl with
  | nil => exact absurd h (by simp [findRoute])
  | cons hd tl ih =>
    unfold findRoute at h
    split at h
    · cases h; exact List.mem_cons_self _ _
    · exact List.mem_cons_of_mem _ (ih h)

theorem bindCall_not_meter (env : Env) (b : RouteBinding) (args : List String)
    (user : Json) (req : Request) (hs : bindingSafe b = true) :
    isMeterIncrement env (bindCall env b args user req) = false := by
  cases hmb : b.method with
  | POST =>
    cases hd : b.downstream with
    | nil => simp [bindingSafe, hmb, hd] at hs
    | cons sg rest =>
      cases sg with
      | par => simp [bindingSafe, hmb, hd] at hs
      | lit s =>
        have hne : s ≠ "usage" := by simpa [bindingSafe, hmb, hd] using hs
        simp [isMeterIncrement, bindCall, instPat, hmb, hd, hne]
  | GET => simp [isMeterIncrement, bindCall, hmb]
  | PATCH => simp [isMeterIncrement, bindCall, hmb]
  | DELETE => simp [isMeterIncrement, bindCall, hmb]
  | PUT => simp [isMeterIncrement, bindCall, hmb]

theorem preTable_safe : preTable.all bindingSafe = true := rfl

theorem postTable_safe : postTable.all bindingSafe = true := rfl

theorem dispatchTable_no_meter (env : Env) (rid : String) (user : Json) (req : Request)
    (tbl : List RouteBinding) (hsafe : tbl.all bindingSafe = true)
    (r : Response × List Call) (h : dispatchTable env rid user req tbl = some r) :
    (r.2.all fun c => !isMeterIncrement env c) = true := by
  unfold dispatchTable at h
  cases hf : findRoute req.method req.path tbl with
  | none => rw [hf] at h; exact absurd h (by simp)
  | some p =>
    rw [hf] at h
    cases h
    have hb : p.1 ∈ tbl := findRoute_mem _ _ _ _ _ (by rw [hf])
    have hbs : bindingSafe p.1 = true := List.all_eq_true.mp hsafe _ hb
    rw [proxy_calls]
    simp [bindCall_not_meter env p.1 p.2 user req hbs]

theorem specialsPre_no_meter (env : Env) (rid : String) (user ents : Json) (req : Request)
    (r : Response × List Call) (h : specialsPre env rid user ents req = some r) :
    (r.2.all fun c => !isMeterIncrement env c) = true := by
  unfold specialsPre at h
  split at h
  · cases h; rfl
  · split at h
    · cases h; rfl
    · split at h
      · cases h; simp [readyzFull, isMeterIncrement]
      · split at h
        · cases h; rfl
        · exact absurd h (by simp)

theorem routesPre_no_meter (env : Env) (rid : String) (user ents : Json) (req : Request)
    (r : Response × List Call) (h : routesPre env rid user ents req = some r) :
    (r.2.all fun c => !isMeterIncrement env c) = true := by
  unfold routesPre at h
  cases hsp : specialsPre env rid user ents req with
  | some r0 =>
    rw [hsp] at h
    simp only [Option.some_orElse] at h
    injection h with h2
    subst h2
    exact specialsPre_no_meter env rid user ents req _ hsp
  | none =>
    rw [hsp] at h
    simp only [Option.none_orElse] at h
    exact dispatchTable_no_meter env rid user req preTable preTable_safe r h

theorem routesPost_no_meter (env : Env) (rid : String) (req : Request)
    (r : Response × List Call) (h : routesPost env rid req = some r) :
    (r.2.all fun c => !isMeterIncrement env c) = true := by
  unfold routesPost at h
  exact dispatchTable_no_meter env rid .null req postTable postTable_safe r h

theorem rlRun_cons (t : Int) (e : RLEvent) (es : List RLEvent) :
    rlRun t (e :: es) =
      ((rlRun (rlStep t e).1 es).1, (rlStep t e).2.toList ++ (rlRun (rlStep t e).1 es).2) := rfl

theorem rlRun_nonneg : ∀ (n : Nat) (t : Int), 0 ≤ t →
    0 ≤ (rlRun t (List.replicate n .request)).1
  | 0, t, ht => by simpa [rlRun] using ht
  | n + 1, t, ht => by
    rw [List.replicate_succ, rlRun_cons]
    by_cases h : t ≤ 0
    · have hs : (rlStep t .request).1 = t := by simp [rlStep, h]
      rw [hs]
      exact rlRun_nonneg n t ht
    · have hs : (rlStep t .request).1 = t - 1 := by simp [rlStep, h]
      rw [hs]
      exact rlRun_nonneg n (t - 1) (by omega)

theorem rlRun_exhaust : ∀ c : Nat,
    (rlRun (c : Int) (List.replicate (c + 1) .request)).2 =
      List.replicate c true ++ [false]
  | 0 => by simp [rlRun, rlStep]
  | c + 1 => by
    rw [List.replicate_succ, rlRun_cons]
    have hpos : ¬ ((c + 1 : Nat) : Int) ≤ 0 := by push_cast; omega
    have hs : rlStep ((c + 1 : Nat) : Int) .request = (((c : Nat) : Int), some true) := by
      simp only [rlStep, if_neg hpos]
      have : ((c + 1 : Nat) : Int) - 1 = ((c : Nat) : Int) := by push_cast; ring
      rw [this]
    rw [hs, rlRun_exhaust c]
    simp [List.replicate_succ]

theorem afterAdmission_no_meter (env : Env) (rid : String) (user ents : Json) (req : Request) :
    ((afterAdmission env rid user ents req).2.all fun c => !isMeterIncrement env c) = true := by
  unfold afterAdmission
  cases hpre : routesPre env rid user ents req with
  | some r => exact routesPre_no_meter env rid user ents req r hpre
  | none =>
    cases guardsCheck ents req.path with
    | some resp => rfl
    | none =>
      cases hpost : routesPost env rid req with
      | some r => exact routesPost_no_meter env rid req r hpost
      | none => rfl

theorem afterAuth_no_meter (env : Env) (tokens : Int) (rid : String) (user ents : Json)
    (entCalls : List Call) (req : Request)
    (h : (entCalls.all fun c => !isMeterIncrement env c) = true) :
    ((afterAuth env tokens rid user ents entCalls req).calls.all
      fun c => !isMeterIncrement env c) = true := by
  unfold afterAuth
  split
  · exact h
  · simp only [List.all_append, h, afterAdmission_no_meter, Bool.and_self]

/-! ## Claim theorems -/

/-- Claim C1: the claim says a request under `/api/forms/*` whose
entitlements have `modules.forms === false` gets
403 "Module disabled: forms" with no downstream call.  The code
registers `moduleEnabled('forms')` *after* the forms route handlers, so
a matched forms route dispatches downstream and relays the response;
the gate never runs for it.  Concretely: an authenticated
`POST /api/forms` with entitlements `{modules:{forms:false}}` and a
forms service answering `201 {id:"abc"}` is answered `201 {id:"abc"}`
(not 403) and the downstream forms call is issued — even though the
gate predicate, evaluated on those same entitlements, denies. -/
theorem C1_forms_guard_not_applied :
    gateModule entsFormsOff "forms" =
      some ⟨403, .obj [("message", .str "Module disabled: forms")]⟩
    ∧ (handle envC1 5 reqC1).response = ⟨201, .obj [("id", .str "abc")]⟩
    ∧ (handle envC1 5 reqC1).response.status ≠ 403
    ∧ (handle envC1 5 reqC1).calls = [entCall envC1 "t1", formsPostCall envC1 reqC1.body] :=
  ⟨rfl, rfl, by decide, rfl⟩

/-- Claim C2 counterexample: with `ENTITLEMENTS_URL` configured and
TenantId `"tenant-42"`, the entitlement read fetches the configured URL
verbatim; the fetched URL does not incorporate the TenantId. -/
theorem C2_counterexample :
    tenantOf userC2 = "tenant-42"
    ∧ (handle envC2 5 reqC2).calls = [entCall envC2 "tenant-42"]
    ∧ urlOf (entCall envC2 "tenant-42") = "http://ents.example/entitlements"
    ∧ strContains (urlOf (entCall envC2 "tenant-42")) "tenant-42" = false :=
  ⟨rfl, rfl, rfl, by decide⟩

/-- Claim C2 (amended): every request passing identity verification
issues the entitlement read first; the fetched URL is the hardcoded
default address with the TenantId appended when `ENTITLEMENTS_URL` is
unset, and is the configured `ENTITLEMENTS_URL` verbatim — not
templated with the TenantId — when it is set and non-empty. -/
theorem C2_entitlement_url :
    (∀ (env : Env) (tid : String), env.entitlementsUrl = none →
      entCall env tid =
        { method := .GET, base := "http://localhost:7002/entitlements/" ++ tid, path := [] })
    ∧ (∀ (env : Env) (tid u : String), env.entitlementsUrl = some u → u ≠ "" →
      (entCall env tid).base = u)
    ∧ (∀ (env : Env) (tokens : Int) (req : Request) (tok : String) (user : Json),
      req.path ∉ openPaths → bearerToken req = some tok → env.jwtVerify tok = some user →
      ∃ rest, (handle env tokens req).calls = entCall env (tenantOf user) :: rest) := by
  refine ⟨?_, ?_, ?_⟩
  · intro env tid h
    simp [entCall, jsOrS, h]
  · intro env tid u h hne
    simp [entCall, jsOrS, h, hne]
  · intro env tokens req tok user hop hbt hv
    rw [handle_authed env tokens req tok user hop hbt hv]
    unfold afterAuth
    split
    · exact ⟨[], rfl⟩
    · exact ⟨_, rfl⟩

/-- Witness for C2_entitlement_url: the authenticated `/api/v1/me`
request against `envC2` issues the entitlement call first. -/
theorem C2_entitlement_url_witness :
    ∃ rest, (handle envC2 5 reqC2).calls = entCall envC2 (tenantOf userC2) :: rest :=
  C2_entitlement_url.2.2 envC2 5 reqC2 "tok" userC2 (by decide) rfl rfl

/-- Claim C3 counterexample: with the admission counter at 0,
`GET /healthz` is rejected 429 by the rate limiter (registered before
the `/healthz` route), not answered 200. -/
theorem C3_counterexample :
    (handle envC3 0 reqC3).response = ⟨429, errEnvelope "Too many requests" "xyz"⟩
    ∧ (handle envC3 0 reqC3).response.status ≠ 200 :=
  ⟨rfl, by decide⟩

/-- Claim C3 (amended): `GET /healthz` with a positive admission
counter returns `200 {status:"ok", requestId}` regardless of header
contents, consuming one admission token; with the counter exhausted it
is rejected 429 like any other request. -/
theorem C3_healthz_ok (env : Env) (tokens : Int) (a x : Option String) (q : String) (bd : Json)
    (ht : 0 < tokens) :
    handle env tokens ⟨.GET, ["healthz"], a, x, q, bd⟩ =
      ⟨⟨200, .obj [ ("status", .str "ok")
                  , ("requestId", .str (requestIdOf env ⟨.GET, ["healthz"], a, x, q, bd⟩)) ]⟩
      , tokens - 1, []⟩ := by
  rw [handle_open env tokens ⟨.GET, ["healthz"], a, x, q, bd⟩ (by simp [openPaths])]
  rw [afterAuth_pos env tokens _ _ _ _ _ ht]
  rfl

/-- Witness for C3_healthz_ok at `envC3` with junk headers. -/
theorem C3_healthz_ok_witness :
    handle envC3 5 reqC3 =
      ⟨⟨200, .obj [ ("status", .str "ok")
                  , ("requestId", .str (requestIdOf envC3 reqC3)) ]⟩
      , 5 - 1, []⟩ :=
  C3_healthz_ok envC3 5 (some "garbage") (some "xyz") "" .null (by decide)

/-- Claim C4 counterexample: the 403 gate denial carries only
`message`, not the correlation `requestId` field (the request reaches
the guard because no registered route matches `/api/forms/a/b`). -/
theorem C4_counterexample :
    (handle envC4 5 reqC4).response.status = 403
    ∧ (handle envC4 5 reqC4).response.body = .obj [("message", .str "Module disabled: forms")]
    ∧ Json.hasKey (handle envC4 5 reqC4).response.body "requestId" = false :=
  ⟨rfl, rfl, rfl⟩

/-- Claim C4 (amended): the 401, 429 and 502 failure envelopes carry
both `message` and `requestId`; the 403 gate denials from
`moduleEnabled`/`featureEnabled` carry only `message` (no `requestId`
in the body); the 503 aggregated-readiness body carries `ready` and
`status` and neither `message` nor `requestId`. -/
theorem C4_error_envelopes :
    (∀ m rid, Json.hasKey (errEnvelope m rid) "message" = true
      ∧ Json.hasKey (errEnvelope m rid) "requestId" = true)
    ∧ (∀ (ents : Json) (key : String) (r : Response), gateModule ents key = some r →
        r = ⟨403, .obj [("message", .str ("Module disabled: " ++ key))]⟩
        ∧ Json.hasKey r.body "requestId" = false)
    ∧ (∀ (ents : Json) (flag : String) (r : Response), gateFeature ents flag = some r →
        r = ⟨403, .obj [("message", .str ("Feature disabled: " ++ flag))]⟩
        ∧ Json.hasKey r.body "requestId" = false)
    ∧ (∀ (env : Env) (rid label : String) (c : Call), env.fetch c = .fthrow →
        (proxy env rid label c).1.body = errEnvelope (label ++ "-service unavailable") rid)
    ∧ (∀ env : Env, Json.hasKey (readyzFull env).1.body "message" = false
        ∧ Json.hasKey (readyzFull env).1.body "requestId" = false) := by
  refine ⟨?_, ?_, ?_, ?_, ?_⟩
  · intro m rid
    exact ⟨rfl, rfl⟩
  · intro ents key r h
    unfold gateModule at h
    split at h
    · injection h with h2
      subst h2
      exact ⟨rfl, rfl⟩
    · exact absurd h (by simp)
  · intro ents flag r h
    unfold gateFeature at h
    split at h
    · injection h with h2
      subst h2
      exact ⟨rfl, rfl⟩
    · exact absurd h (by simp)
  · intro env rid label c h
    rw [proxy_fail_throw env rid label c h]
  · intro env
    exact ⟨rfl, rfl⟩

/-- Witness for C4_error_envelopes: the concrete `moduleEnabled`
denial for key `"forms"` on `entsC4`. -/
theorem C4_error_envelopes_witness :
    gateRespC4 = ⟨403, .obj [("message", .str ("Module disabled: " ++ "forms"))]⟩
    ∧ Json.hasKey gateRespC4.body "requestId" = false :=
  C4_error_envelopes.2.1 entsC4 "forms" gateRespC4 rfl

/-- Claim C5: a transport-level downstream failure (fetch throws, or
the body fails JSON decode) on any proxied route yields exactly
`502 { message: label ++ "-service unavailable", requestId }`; in
particular, end to end, an authenticated admitted `GET /api/org/:id`
whose downstream org call fails yields
`502 {message:"org-service unavailable", requestId}` and issues
exactly the entitlement call and the org call. -/
theorem C5_transport_failure_502 :
    (∀ (env : Env) (rid label : String) (c : Call),
        env.fetch c = .fthrow →
        (proxy env rid label c).1 = ⟨502, errEnvelope (label ++ "-service unavailable") rid⟩)
    ∧ (∀ (env : Env) (rid label : String) (c : Call) (s : Nat),
        env.fetch c = .resp s none →
        (proxy env rid label c).1 = ⟨502, errEnvelope (label ++ "-service unavailable") rid⟩)
    ∧ (∀ (env : Env) (tokens : Int) (oid : String) (a x : Option String) (q : String)
        (bd : Json) (tok : String) (user : Json),
        bearerToken ⟨.GET, ["api", "org", oid], a, x, q, bd⟩ = some tok →
        env.jwtVerify tok = some user → 0 < tokens →
        (env.fetch (orgGetCall env oid) = .fthrow ∨
          ∃ s, env.fetch (orgGetCall env oid) = .resp s none) →
        (handle env tokens ⟨.GET, ["api", "org", oid], a, x, q, bd⟩).response =
            ⟨502, errEnvelope "org-service unavailable"
              (requestIdOf env ⟨.GET, ["api", "org", oid], a, x, q, bd⟩)⟩
        ∧ (handle env tokens ⟨.GET, ["api", "org", oid], a, x, q, bd⟩).calls =
            [entCall env (tenantOf user), orgGetCall env oid]) := by
  refine ⟨?_, ?_, ?_⟩
  · intro env rid label c h
    rw [proxy_fail_throw env rid label c h]
  · intro env rid label c s h
    rw [proxy_fail_decode env rid label c s h]
  · intro env tokens oid a x q bd tok user hbt hv ht hfail
    rw [handle_authed env tokens _ tok user (by simp [openPaths]) hbt hv]
    rw [afterAuth_pos env tokens _ _ _ _ _ ht]
    have hadm : afterAdmission env (requestIdOf env ⟨.GET, ["api", "org", oid], a, x, q, bd⟩)
        user (resolveEnts env (tenantOf user)).1 ⟨.GET, ["api", "org", oid], a, x, q, bd⟩ =
        proxy env (requestIdOf env ⟨.GET, ["api", "org", oid], a, x, q, bd⟩) "org"
          (orgGetCall env oid) := rfl
    rw [hadm]
    rcases hfail with hf | ⟨s, hf⟩
    · rw [proxy_fail_throw env _ "org" _ hf]
      exact ⟨rfl, rfl⟩
    · rw [proxy_fail_decode env _ "org" _ s hf]
      exact ⟨rfl, rfl⟩

/-- Witness for C5_transport_failure_502: `envC5`'s org service is
unreachable, so `GET /api/org/42` yields the org 502 envelope. -/
theorem C5_transport_failure_502_witness :
    (handle envC5 5 reqC5).response =
      ⟨502, errEnvelope "org-service unavailable" (requestIdOf envC5 reqC5)⟩
    ∧ (handle envC5 5 reqC5).calls =
      [entCall envC5 (tenantOf (Json.obj [])), orgGetCall envC5 "42"] :=
  C5_transport_failure_502.2.2 envC5 5 "42" (some "Bearer tok") none "" .null "tok"
    (.obj []) rfl rfl (by decide) (Or.inl rfl)

/-- Claim C6: when the downstream responds and its body decodes, the
gateway relays the downstream status and decoded body unchanged — as a
generic fact about the proxy contract, and end to end for
`GET /api/org/:id` and `POST /api/forms`. -/
theorem C6_passthrough :
    (∀ (env : Env) (rid label : String) (c : Call) (s : Nat) (j : Json),
        env.fetch c = .resp s (some j) → proxy env rid label c = (⟨s, j⟩, [c]))
    ∧ (∀ (env : Env) (tokens : Int) (oid : String) (a x : Option String) (q : String)
        (bd : Json) (tok : String) (user : Json) (s : Nat) (j : Json),
        bearerToken ⟨.GET, ["api", "org", oid], a, x, q, bd⟩ = some tok →
        env.jwtVerify tok = some user → 0 < tokens →
        env.fetch (orgGetCall env oid) = .resp s (some j) →
        (handle env tokens ⟨.GET, ["api", "org", oid], a, x, q, bd⟩).response = ⟨s, j⟩)
    ∧ (∀ (env : Env) (tokens : Int) (a x : Option String) (q : String) (bd : Json)
        (tok : String) (user : Json) (s : Nat) (j : Json),
        bearerToken ⟨.POST, ["api", "forms"], a, x, q, bd⟩ = some tok →
        env.jwtVerify tok = some user → 0 < tokens →
        env.fetch (formsPostCall env bd) = .resp s (some j) →
        (handle env tokens ⟨.POST, ["api", "forms"], a, x, q, bd⟩).response = ⟨s, j⟩) := by
  refine ⟨?_, ?_, ?_⟩
  · intro env rid label c s j h
    rw [proxy_pass env rid label c s j h]
  · intro env tokens oid a x q bd tok user s j hbt hv ht hf
    rw [handle_authed env tokens _ tok user (by simp [openPaths]) hbt hv]
    rw [afterAuth_pos env tokens _ _ _ _ _ ht]
    have hadm : afterAdmission env (requestIdOf env ⟨.GET, ["api", "org", oid], a, x, q, bd⟩)
        user (resolveEnts env (tenantOf user)).1 ⟨.GET, ["api", "org", oid], a, x, q, bd⟩ =
        proxy env (requestIdOf env ⟨.GET, ["api", "org", oid], a, x, q, bd⟩) "org"
          (orgGetCall env oid) := rfl
    rw [hadm, proxy_pass env _ "org" _ s j hf]
  · intro env tokens a x q bd tok user s j hbt hv ht hf
    rw [handle_authed env tokens _ tok user (by simp [openPaths]) hbt hv]
    rw [afterAuth_pos env tokens _ _ _ _ _ ht]
    have hadm : afterAdmission env (requestIdOf env ⟨.POST, ["api", "forms"], a, x, q, bd⟩)
        user (resolveEnts env (tenantOf user)).1 ⟨.POST, ["api", "forms"], a, x, q, bd⟩ =
        proxy env (requestIdOf env ⟨.POST, ["api", "forms"], a, x, q, bd⟩) "forms"
          (formsPostCall env bd) := rfl
    rw [hadm, proxy_pass env _ "forms" _ s j hf]

/-- Witness for C6_passthrough: `envC6`'s forms service answers
`201 {id:"abc"}`, relayed verbatim. -/
theorem C6_passthrough_witness :
    (handle envC6 5 reqC6).response = ⟨201, .obj [("id", .str "abc")]⟩ :=
  C6_passthrough.2.2 envC6 5 (some "Bearer tok") none "" (.obj [("title", .str "t")])
    "tok" (.obj []) 201 (.obj [("id", .str "abc")]) rfl rfl (by decide) rfl

/-- Claim C7: on every protected path (not exactly `/healthz`,
`/readyz` or `/auth/login`), a request without a `Bearer` token is
answered `401 {message:"Missing token", requestId}` and a request whose
token fails verification is answered
`401 {message:"Invalid token", requestId}`; in both cases the counter
is untouched and no downstream call is issued (no later stage runs). -/
theorem C7_auth_rejection (env : Env) (tokens : Int) (req : Request)
    (hop : req.path ∉ openPaths) :
    (bearerToken req = none →
      handle env tokens req =
        ⟨⟨401, errEnvelope "Missing token" (requestIdOf env req)⟩, tokens, []⟩)
    ∧ (∀ tok, bearerToken req = some tok → env.jwtVerify tok = none →
      handle env tokens req =
        ⟨⟨401, errEnvelope "Invalid token" (requestIdOf env req)⟩, tokens, []⟩) := by
  constructor
  · intro hbt
    exact handle_missing env tokens req hop hbt
  · intro tok hbt hv
    exact handle_badtoken env tokens req tok hop hbt hv

/-- Witness for C7_auth_rejection: `reqC7` has no Authorization header. -/
theorem C7_auth_rejection_witness :
    handle envC7 7 reqC7 =
      ⟨⟨401, errEnvelope "Missing token" (requestIdOf envC7 reqC7)⟩, 7, []⟩ :=
  (C7_auth_rejection envC7 7 reqC7 (by decide)).1 rfl

/-- Claim C8: the admission counter starts at the configured ceiling
(default 200); an admitted request decrements it by exactly one; a
request at counter ≤ 0 is rejected without decrementing, so from a
non-negative start the counter never goes negative between refills;
from a full counter of `c`, after `c` admissions the next request is
rejected; each refill tick resets the counter to the ceiling read
fresh from configuration; and at the pipeline level an exhausted
counter answers `429 {message:"Too many requests", requestId}` without
decrementing, while an admitted request leaves `tokens - 1`. -/
theorem C8_rate_limiter :
    (ceilingOf none = 200 ∧ ∀ c : Int, ceilingOf (some c) = c)
    ∧ (∀ t : Int, 0 < t → rlStep t .request = (t - 1, some true))
    ∧ (∀ t : Int, t ≤ 0 → rlStep t .request = (t, some false))
    ∧ (∀ (n : Nat) (t : Int), 0 ≤ t → 0 ≤ (rlRun t (List.replicate n .request)).1)
    ∧ (∀ c : Nat, (rlRun (c : Int) (List.replicate (c + 1) .request)).2 =
        List.replicate c true ++ [false])
    ∧ (∀ (t : Int) (cfg : Option Int), rlStep t (.tick cfg) = (ceilingOf cfg, none))
    ∧ (∀ (env : Env) (tokens : Int) (req : Request), req.path ∈ openPaths → tokens ≤ 0 →
        handle env tokens req =
          ⟨⟨429, errEnvelope "Too many requests" (requestIdOf env req)⟩, tokens, []⟩)
    ∧ (∀ (env : Env) (tokens : Int) (req : Request), req.path ∈ openPaths → 0 < tokens →
        (handle env tokens req).tokens = tokens - 1) := by
  refine ⟨⟨rfl, fun c => rfl⟩, ?_, ?_, rlRun_nonneg, rlRun_exhaust, fun t cfg => rfl, ?_, ?_⟩
  · intro t ht
    simp [rlStep, not_le.mpr ht]
  · intro t ht
    simp [rlStep, ht]
  · intro env tokens req hop ht
    rw [handle_open env tokens req hop]
    rw [afterAuth_nonpos env tokens _ _ _ _ _ ht]
  · intro env tokens req hop ht
    rw [handle_open env tokens req hop]
    rw [afterAuth_pos env tokens _ _ _ _ _ ht]

/-- Witness for C8_rate_limiter: an exhausted counter rejects
`GET /healthz` with 429 and does not decrement. -/
theorem C8_rate_limiter_witness :
    handle envC3 0 reqC3 =
      ⟨⟨429, errEnvelope "Too many requests" (requestIdOf envC3 reqC3)⟩, 0, []⟩ :=
  C8_rate_limiter.2.2.2.2.2.2.1 envC3 0 reqC3 (by decide) (by decide)

/-- Claim C9: entitlement resolution never fails the request — if the
entitlement fetch throws, returns a non-2xx status, or its body fails
to decode, the EntitlementSet resolves to the empty set
`{modules:{}, features:{}}` and the request continues into the
rate-limited route chain with that value; this stage produces no error
response of its own. -/
theorem C9_entitlement_fail_open (env : Env) (tokens : Int) (req : Request)
    (tok : String) (user : Json)
    (hop : req.path ∉ openPaths) (hbt : bearerToken req = some tok)
    (hv : env.jwtVerify tok = some user)
    (hfail : env.fetch (entCall env (tenantOf user)) = .fthrow
      ∨ (∃ s b, env.fetch (entCall env (tenantOf user)) = .resp s b ∧ okStatus s = false)
      ∨ (∃ s, env.fetch (entCall env (tenantOf user)) = .resp s none)) :
    (resolveEnts env (tenantOf user)).1 = emptyEnts
    ∧ handle env tokens req =
        afterAuth env tokens (requestIdOf env req) user emptyEnts
          [entCall env (tenantOf user)] req := by
  have h1 : (resolveEnts env (tenantOf user)).1 = emptyEnts := by
    unfold resolveEnts
    rcases hfail with hf | ⟨s, b, hf, hok⟩ | ⟨s, hf⟩
    · rw [hf]
    · rw [hf]
      simp [hok]
    · rw [hf]
      cases hok : okStatus s <;> simp [hok]
  refine ⟨h1, ?_⟩
  rw [handle_authed env tokens req tok user hop hbt hv, h1]

/-- Witness for C9_entitlement_fail_open: `envC9`'s entitlement fetch
throws, and the authenticated `/api/v1/me` request continues with the
empty set. -/
theorem C9_entitlement_fail_open_witness :
    (resolveEnts envC9 (tenantOf (Json.obj []))).1 = emptyEnts
    ∧ handle envC9 5 reqC9 =
        afterAuth envC9 5 (requestIdOf envC9 reqC9) (.obj []) emptyEnts
          [entCall envC9 (tenantOf (Json.obj []))] reqC9 :=
  C9_entitlement_fail_open envC9 5 reqC9 "tok" (.obj []) (by decide) rfl rfl (Or.inl rfl)

/-- Claim C10: no registered route is wrapped with `wrapWrite`, so no
request ever issues the metering notification (a POST to the metering
base's `usage/increment`); and `wrapWrite`/`meterWrite` by construction
never change the wrapped handler's response, so metering can never
alter a user-visible status or body. -/
theorem C10_no_metering :
    (∀ (env : Env) (tokens : Int) (req : Request),
        ((handle env tokens req).calls.all fun c => !isMeterIncrement env c) = true)
    ∧ (∀ (env : Env) (handler : Request → Response × List Call) (metric : String)
        (user : Json) (req : Request),
        (wrapWrite env handler metric user req).1 = (handler req).1) := by
  constructor
  · intro env tokens req
    by_cases hop : req.path ∈ openPaths
    · rw [handle_open env tokens req hop]
      exact afterAuth_no_meter env tokens _ _ _ [] req rfl
    · cases hbt : bearerToken req with
      | none =>
        rw [handle_missing env tokens req hop hbt]
        rfl
      | some tok =>
        cases hv : env.jwtVerify tok with
        | none =>
          rw [handle_badtoken env tokens req tok hop hbt hv]
          rfl
        | some user =>
          rw [handle_authed env tokens req tok user hop hbt hv]
          refine afterAuth_no_meter env tokens _ user _ _ req ?_
          simp [entCall_not_meter]
  · intro env handler metric user req
    rfl

end Gateway
